import Mathlib

/-!
Shallow embedding of the manifest-validation core of the `addons-linter`
repository: the API compatibility oracle (`schema/browser-apis`), the
schema-validator keyword extensions and validation facade
(`src/schema/validator.js`), and the unsupported-API lint rule.

Machine integers of the source are modelled as `Nat`; JavaScript
`undefined`/missing values are modelled with `Option`.
-/

namespace AddonsLinter

/-- Modelled from the spec: the constant `MANIFEST_VERSION_DEFAULT` lives in the
`const` module, which is not under `src/`; the spec fixes the default manifest
version to 2. -/
def MANIFEST_VERSION_DEFAULT : Nat := 2

/-- Addon metadata object: its `manifestVersion` field may be absent (`none`),
mirroring a JS object lacking the field. -/
structure AddonMetadata where
  manifestVersion : Option Nat
deriving DecidableEq

/-- Modelled from the spec: a version bound `{min?, max?}`; absence of a
component means unconstrained in that direction (spec section 3, VersionBound). -/
structure VersionBound where
  min : Option Nat
  max : Option Nat
deriving DecidableEq

/-- Modelled from the spec: a member entry of an API namespace, with optional
per-member manifest-version bounds (spec section 3, MemberEntry; field names
follow the JSON shape used by the browser-apis tests). -/
structure MemberEntry where
  name : String
  min_manifest_version : Option Nat
  max_manifest_version : Option Nat
deriving DecidableEq

/-- Modelled from the spec: a namespace entry with optional namespace-level
bounds and a list of member entries (spec section 3, NamespaceEntry). -/
structure NamespaceEntry where
  min_manifest_version : Option Nat
  max_manifest_version : Option Nat
  functions : List MemberEntry
deriving DecidableEq

/-- An API compatibility table: namespaces keyed by name. -/
def APISchemas : Type := List (String × NamespaceEntry)

/-- Look up a namespace entry by name in a table. -/
def lookupNamespace (schemas : APISchemas) (ns : String) : Option NamespaceEntry :=
  (schemas.find? (fun p => p.fst == ns)).map Prod.snd

/-- Look up a member entry by name inside a namespace entry. -/
def lookupMemberEntry (entry : NamespaceEntry) (property : String) : Option MemberEntry :=
  entry.functions.find? (fun f => f.name == property)

/-- Modelled from the spec: `intersectMax` of the Bound Resolver — the smaller
of the two present maxima; unbounded (`none`) if neither is present; the single
present one if only one exists (spec section 4.1). -/
def intersectMax : Option Nat → Option Nat → Option Nat
  | none, none => none
  | some a, none => some a
  | none, some b => some b
  | some a, some b => some (Nat.min a b)

/-- Modelled from the spec: `unionMin` of the Bound Resolver — the larger of
the two present minima; zero (no floor) if neither is present (spec
section 4.1). -/
def unionMin : Option Nat → Option Nat → Nat
  | none, none => 0
  | some a, none => a
  | none, some b => b
  | some a, some b => Nat.max a b

/-- Modelled from the spec: `inRange(version, bound)` is true iff the bound's
min is absent or `version >= min`, and the bound's max is absent or
`version <= max` (spec section 4.1). A `none` version (JS `undefined`) fails
any present comparison, as JS comparisons with `undefined` are false. -/
def inRange (version : Option Nat) (bound : VersionBound) : Bool :=
  (match bound.min with
   | none => true
   | some m => match version with
     | some v => decide (m ≤ v)
     | none => false) &&
  (match bound.max with
   | none => true
   | some m => match version with
     | some v => decide (v ≤ m)
     | none => false)

/-- Modelled from the spec: `getManifestVersion` (the Oracle's
`effectiveManifestVersion`): an entirely absent metadata argument yields the
default version 2; a present object yields its `manifestVersion` field with no
default substituted (spec section 4.2). The outer `Option` is argument
presence, the inner one the field. -/
def getManifestVersion (addonMetadata : Option AddonMetadata) : Option Nat :=
  match addonMetadata with
  | none => some MANIFEST_VERSION_DEFAULT
  | some md => md.manifestVersion

/-- Modelled from the spec: `isTemporaryApi` is a pure membership test of
`"namespace.member"` against the temporary-APIs list (spec section 4.2). The
list (the `TEMPORARY_APIS` constant, not under `src/`) is a parameter. -/
def isTemporaryApi (ns property : String) (temporaryAPIs : List String) : Bool :=
  temporaryAPIs.contains (ns ++ "." ++ property)

/-- Modelled from the spec: `isDeprecatedApi` is true iff `"namespace.member"`
is a key of the deprecated map and the effective manifest version lies in the
entry's bound (spec section 4.2). The map (`DEPRECATED_JAVASCRIPT_APIS`, not
under `src/`) is a parameter. -/
def isDeprecatedApi (ns property : String) (addonMetadata : Option AddonMetadata)
    (deprecatedAPIs : List (String × VersionBound)) : Bool :=
  match deprecatedAPIs.find? (fun p => p.fst == ns ++ "." ++ property) with
  | none => false
  | some p => inRange (getManifestVersion addonMetadata) p.snd

/-- Modelled from the spec: `getMaxManifestVersion` returns
`intersectMax(namespaceBound.max, memberBound.max)` over the given table; the
metadata argument is accepted for API symmetry but unused (spec section 4.2). -/
def getMaxManifestVersion (ns property : String) (addonMetadata : Option AddonMetadata)
    (schemas : APISchemas) : Option Nat :=
  match lookupNamespace schemas ns with
  | none => none
  | some entry =>
    intersectMax entry.max_manifest_version
      ((lookupMemberEntry entry property).bind (fun m => m.max_manifest_version))

/-- Modelled from the spec: `getMinManifestVersion` returns
`unionMin(namespaceBound.min, memberBound.min)` over the given table; the
metadata argument is unused (spec section 4.2). -/
def getMinManifestVersion (ns property : String) (addonMetadata : Option AddonMetadata)
    (schemas : APISchemas) : Nat :=
  match lookupNamespace schemas ns with
  | none => 0
  | some entry =>
    unionMin entry.min_manifest_version
      ((lookupMemberEntry entry property).bind (fun m => m.min_manifest_version))

/-- Modelled from the spec: `hasBrowserApi` (the Oracle's `hasApi`). Resolution
order (spec section 4.2): a temporary `"namespace.member"` pair is true
unconditionally; an unknown namespace or an unlisted member is false; otherwise
the effective manifest version is tested against the bound obtained by taking
the union (larger) of the namespace-level and member-level minima and the
intersection (smaller) of their maxima. The deprecated map is not consulted. -/
def hasBrowserApi (ns property : String) (addonMetadata : Option AddonMetadata)
    (schemas : APISchemas) (temporaryAPIs : List String) : Bool :=
  if isTemporaryApi ns property temporaryAPIs then true
  else
    match lookupNamespace schemas ns with
    | none => false
    | some entry =>
      match lookupMemberEntry entry property with
      | none => false
      | some m =>
        inRange (getManifestVersion addonMetadata)
          { min := some (unionMin entry.min_manifest_version m.min_manifest_version),
            max := intersectMax entry.max_manifest_version m.max_manifest_version }

/-- Diagnostic emitted by a keyword validator or by the schema engine:
`{keyword, message}` as built in `src/schema/validator.js`. -/
structure Diagnostic where
  keyword : String
  message : String
deriving DecidableEq

/-- Root of a manifest document as the keyword validators see it: only the
`manifest_version` field matters to them; `none` models a document lacking the
field (JS `undefined`). -/
structure ManifestRoot where
  manifest_version : Option Nat
deriving DecidableEq

/-- JavaScript `x || d` for `x` a possibly-undefined numeric value: an absent
value or the falsy number 0 yields the default. -/
def jsOr (v : Option Nat) (dflt : Nat) : Nat :=
  match v with
  | some n => if n = 0 then dflt else n
  | none => dflt

/-- Embedding of `validateMinMV` (validator.js lines 106-131): the manifest
version is `(rootData && rootData.manifest_version) || MANIFEST_VERSION_DEFAULT`
and the keyword passes iff `minMV <= manifestVersion`, otherwise it reports one
`unsupported` diagnostic. The first component is the returned boolean, the
second the `errors` array the validator assigns on failure (`none` when the
call assigns no errors). -/
def validateMinMV (minMV : Nat) (rootData : Option ManifestRoot) :
    Bool × Option (List Diagnostic) :=
  let manifestVersion :=
    jsOr (rootData.bind (fun r => r.manifest_version)) MANIFEST_VERSION_DEFAULT
  if minMV ≤ manifestVersion then (true, none)
  else
    (false,
      some [{ keyword := "unsupported",
              message := "is in a format only supported with manifest versions >= "
                ++ toString minMV }])

/-- Embedding of `validateMaxMV` (validator.js lines 84-104): the keyword
passes iff `maxMV >= rootData.manifest_version`; a JS comparison against an
absent (`undefined`) field is false, so an absent field fails the check (no
default is substituted here). On failure it reports one `unsupported`
diagnostic. -/
def validateMaxMV (maxMV : Nat) (rootData : ManifestRoot) :
    Bool × Option (List Diagnostic) :=
  let res :=
    match rootData.manifest_version with
    | some v => decide (v ≤ maxMV)
    | none => false
  if res then (true, none)
  else
    (false,
      some [{ keyword := "unsupported",
              message := "is in a format only supported in manifest versions <= "
                ++ toString maxMV }])

/-- Embedding of `validateDeprecated` (validator.js lines 58-82): if the data
path is not an own key of `DEPRECATED_MANIFEST_PROPERTIES` the keyword passes
(no error is emitted); if it is, the keyword always fails with one `deprecated`
diagnostic carrying the message configured in the schema annotation. The
registry (a constant from the `const` module, not under `src/`) is passed as
the list of its keys. -/
def validateDeprecated (message : String) (dataPath : String)
    (deprecatedManifestProperties : List String) : Bool × Option (List Diagnostic) :=
  if deprecatedManifestProperties.contains dataPath then
    (false, some [{ keyword := "deprecated", message := message }])
  else (true, none)

/-- Embedding of `filterErrors` (validator.js lines 133-140): a present error
list is filtered to drop entries whose keyword is `$merge`; an absent list
(JS `null`/`undefined`) is passed through unchanged. -/
def filterErrors (errors : Option (List Diagnostic)) : Option (List Diagnostic) :=
  match errors with
  | some errs => some (errs.filter (fun e => e.keyword != "$merge"))
  | none => none

/-- Modelled from the spec: the external schema engine (ajv) behind a compiled
validation variant — invoking it on a document yields the boolean verdict and
the `errors` value it leaves on the compiled validator (`none` for JS `null`).
The engine itself is out of scope of the repository source. -/
structure SchemaEngine (Doc : Type) where
  run : Doc → Bool × Option (List Diagnostic)

/-- Embedding of `validateAddon` (validator.js lines 161-169): picks the
MV3-capped or the plain compiled engine according to `enableManifestVersion3`,
runs it, and exposes the filtered error list alongside the verdict (the JS code
stores that list on `validateAddon.errors`; see `errorsSlotAfter` for the slot
semantics). -/
def validateAddon {Doc : Type} (validateNormal validateMV3 : SchemaEngine Doc)
    (manifestData : Doc) (enableManifestVersion3 : Bool) :
    Bool × Option (List Diagnostic) :=
  let v := if enableManifestVersion3 then validateMV3 else validateNormal
  let r := v.run manifestData
  (r.fst, filterErrors r.snd)

/-- Embedding of `validateStaticTheme` (validator.js lines 199-203). -/
def validateStaticTheme {Doc : Type} (engine : SchemaEngine Doc) (manifestData : Doc) :
    Bool × Option (List Diagnostic) :=
  let r := engine.run manifestData
  (r.fst, filterErrors r.snd)

/-- Embedding of `validateLangPack` (validator.js lines 227-231). -/
def validateLangPack {Doc : Type} (engine : SchemaEngine Doc) (manifestData : Doc) :
    Bool × Option (List Diagnostic) :=
  let r := engine.run manifestData
  (r.fst, filterErrors r.snd)

/-- Embedding of `validateDictionary` (validator.js lines 253-257). -/
def validateDictionary {Doc : Type} (engine : SchemaEngine Doc) (manifestData : Doc) :
    Bool × Option (List Diagnostic) :=
  let r := engine.run manifestData
  (r.fst, filterErrors r.snd)

/-- Embedding of `validateLocaleMessages` (validator.js lines 265-269). -/
def validateLocaleMessages {Doc : Type} (engine : SchemaEngine Doc)
    (localeMessagesData : Doc) : Bool × Option (List Diagnostic) :=
  let r := engine.run localeMessagesData
  (r.fst, filterErrors r.snd)

/-- State of the mutable `errors` property attached to an exported validate
function after a sequence of calls against the same compiled engine: each call
overwrites the slot with the filtered errors of that call. -/
def errorsSlotAfter {Doc : Type} (engine : SchemaEngine Doc)
    (initial : Option (List Diagnostic)) (calls : List Doc) :
    Option (List Diagnostic) :=
  calls.foldl (fun _ doc => filterErrors (engine.run doc).snd) initial

/-- A `MemberExpression` AST node as the unsupported-browser-apis lint rule
inspects it: `computed` is bracket notation; `objectObjectName` is the name of
`node.object.object` when that base object exists; `objectPropertyName` is
`node.object.property.name` (the API namespace) and `propertyName` is
`node.property.name` (the API member). -/
structure MemberExpressionNode where
  computed : Bool
  objectObjectName : Option String
  objectPropertyName : String
  propertyName : String
deriving DecidableEq

/-- Embedding of the lint rule's `MemberExpression` visitor
(`src/unnamed/part_001` lines 8-23): a diagnostic (carrying the
`namespace.member` string interpolated into `UNSUPPORTED_API`) is reported
exactly on a non-computed access whose base object exists and is a recognized
browser namespace identifier and whose `namespace.member` pair fails
`hasBrowserApi` for the addon metadata. `isBrowserNamespace` comes from the
`utils` module (not under `src/`) and is a parameter. -/
def memberExpressionVisitor (isBrowserNamespace : String → Bool)
    (schemas : APISchemas) (temporaryAPIs : List String)
    (addonMetadata : Option AddonMetadata) (node : MemberExpressionNode) :
    Option String :=
  if !node.computed then
    match node.objectObjectName with
    | some objName =>
      if isBrowserNamespace objName then
        let ns := node.objectPropertyName
        let property := node.propertyName
        if !hasBrowserApi ns property addonMetadata schemas temporaryAPIs then
          some (ns ++ "." ++ property)
        else none
      else none
    | none => none
  else none

/-- Claimed behavior of `getManifestVersion` on a populated metadata object,
per the spec sentence, for comparison: returns the stored field value. -/
def claimedPopulatedVersion (v : Nat) : Option Nat :=
  getManifestVersion (some { manifestVersion := some v })

/-- C1: `hasBrowserApi` resolves in order: a pair in the temporary set is true
unconditionally; an unknown namespace or an unlisted member is false; otherwise
the result is whether the effective manifest version lies in the bound with the
union (larger) of the namespace-level and member-level minima and the
intersection (smaller) of their maxima; and a pair in the deprecated map is
resolved through this very path, so deprecation never makes the result false. -/
theorem hasBrowserApi_resolution (ns property : String) (md : Option AddonMetadata)
    (schemas : APISchemas) (temporaryAPIs : List String) :
    (isTemporaryApi ns property temporaryAPIs = true →
      hasBrowserApi ns property md schemas temporaryAPIs = true)
    ∧ (isTemporaryApi ns property temporaryAPIs = false →
        lookupNamespace schemas ns = none →
        hasBrowserApi ns property md schemas temporaryAPIs = false)
    ∧ (∀ entry, isTemporaryApi ns property temporaryAPIs = false →
        lookupNamespace schemas ns = some entry →
        lookupMemberEntry entry property = none →
        hasBrowserApi ns property md schemas temporaryAPIs = false)
    ∧ (∀ entry m, isTemporaryApi ns property temporaryAPIs = false →
        lookupNamespace schemas ns = some entry →
        lookupMemberEntry entry property = some m →
        hasBrowserApi ns property md schemas temporaryAPIs =
          inRange (getManifestVersion md)
            { min := some (getMinManifestVersion ns property md schemas),
              max := getMaxManifestVersion ns property md schemas })
    ∧ (∀ deprecatedAPIs entry m,
        isDeprecatedApi ns property md deprecatedAPIs = true →
        lookupNamespace schemas ns = some entry →
        lookupMemberEntry entry property = some m →
        hasBrowserApi ns property md schemas temporaryAPIs =
          (isTemporaryApi ns property temporaryAPIs ||
            inRange (getManifestVersion md)
              { min := some (getMinManifestVersion ns property md schemas),
                max := getMaxManifestVersion ns property md schemas })) := by
  refine ⟨?_, ?_, ?_, ?_, ?_⟩
  · intro h
    simp [hasBrowserApi, h]
  · intro hT hN
    simp [hasBrowserApi, hT, hN]
  · intro entry hT hN hM
    simp [hasBrowserApi, hT, hN, hM]
  · intro entry m hT hN hM
    simp [hasBrowserApi, hT, hN, hM, getMinManifestVersion, getMaxManifestVersion]
  · intro deprecatedAPIs entry m hD hN hM
    cases hT : isTemporaryApi ns property temporaryAPIs
    · simp [hasBrowserApi, hT, hN, hM, getMinManifestVersion, getMaxManifestVersion]
    · simp [hasBrowserApi, hT]

/-- C1 witness: a temporary pair resolves to true, the member bound check
resolves to the in-range verdict, on concrete inputs. -/
theorem hasBrowserApi_resolution_witness :
    hasBrowserApi "identity" "getRedirectURL" none [] ["identity.getRedirectURL"] = true :=
  (hasBrowserApi_resolution "identity" "getRedirectURL" none []
    ["identity.getRedirectURL"]).1 (by decide)

/-- C2 counterexample: the absent-metadata state and the populated state with
`manifestVersion` 2 resolve to the same result (the default 2), so the three
input states do not always resolve to three distinguishable results. -/
theorem getManifestVersion_collapse_at_two :
    getManifestVersion none = some 2
    ∧ claimedPopulatedVersion 2 = some 2
    ∧ getManifestVersion none = claimedPopulatedVersion 2 := by
  refine ⟨rfl, rfl, rfl⟩

/-- C2 amended: `getManifestVersion` of an entirely absent argument is the
default 2; of a present object lacking the field it is `undefined` (`none`); of
`{manifestVersion := v}` it is `v`; the absent and the present-but-empty states
always resolve differently, and the populated state differs from both whenever
`v ≠ 2` (at `v = 2` it coincides with the absent-state default). -/
theorem getManifestVersion_contract :
    getManifestVersion none = some 2
    ∧ getManifestVersion (some { manifestVersion := none }) = none
    ∧ (∀ v, getManifestVersion (some { manifestVersion := some v }) = some v)
    ∧ getManifestVersion none ≠ getManifestVersion (some { manifestVersion := none })
    ∧ (∀ v, v ≠ 2 →
        getManifestVersion (some { manifestVersion := some v }) ≠ getManifestVersion none
        ∧ getManifestVersion (some { manifestVersion := some v }) ≠
            getManifestVersion (some { manifestVersion := none })) := by
  refine ⟨rfl, rfl, fun v => rfl, by decide, ?_⟩
  intro v hv
  constructor
  · simp [getManifestVersion, MANIFEST_VERSION_DEFAULT, hv]
  · simp [getManifestVersion]

/-- C2 witness: at the concrete version 3 the populated state differs from the
absent state. -/
theorem getManifestVersion_contract_witness :
    getManifestVersion (some { manifestVersion := some 3 }) ≠ getManifestVersion none :=
  (getManifestVersion_contract.2.2.2.2 3 (by decide)).1

/-- C6: over any table where the namespace and the member are found,
`getMaxManifestVersion` is the intersection (`intersectMax`) of the two
optional maxima — the smaller when both are present — and
`getMinManifestVersion` is the union (`unionMin`) of the two optional minima —
the larger when both are present; the metadata argument affects neither. -/
theorem manifest_version_bounds_rules (ns property : String) (md : Option AddonMetadata)
    (schemas : APISchemas) (entry : NamespaceEntry) (m : MemberEntry)
    (hN : lookupNamespace schemas ns = some entry)
    (hM : lookupMemberEntry entry property = some m) :
    getMaxManifestVersion ns property md schemas =
      intersectMax entry.max_manifest_version m.max_manifest_version
    ∧ getMinManifestVersion ns property md schemas =
      unionMin entry.min_manifest_version m.min_manifest_version
    ∧ (∀ a b, intersectMax (some a) (some b) = some (Nat.min a b))
    ∧ (∀ a b, unionMin (some a) (some b) = Nat.max a b)
    ∧ (∀ md2, getMaxManifestVersion ns property md2 schemas =
          getMaxManifestVersion ns property md schemas
        ∧ getMinManifestVersion ns property md2 schemas =
          getMinManifestVersion ns property md schemas) := by
  refine ⟨?_, ?_, fun a b => rfl, fun a b => rfl, fun md2 => ⟨rfl, rfl⟩⟩
  · simp [getMaxManifestVersion, hN, hM]
  · simp [getMinManifestVersion, hN, hM]

/-- C6 witness: on the concrete table where the namespace declares max 3 and
min 2 while the member declares max 2 and min 3, the resolved maximum is 2 and
the resolved minimum is 3. -/
theorem manifest_version_bounds_rules_witness :
    getMaxManifestVersion "fakeAPINamespace" "fakeMethod"
      (some { manifestVersion := some 2 })
      [("fakeAPINamespace",
        { min_manifest_version := some 2, max_manifest_version := some 3,
          functions := [{ name := "fakeMethod", min_manifest_version := some 3,
                          max_manifest_version := some 2 }] })] = some 2
    ∧ getMinManifestVersion "fakeAPINamespace" "fakeMethod"
      (some { manifestVersion := some 2 })
      [("fakeAPINamespace",
        { min_manifest_version := some 2, max_manifest_version := some 3,
          functions := [{ name := "fakeMethod", min_manifest_version := some 3,
                          max_manifest_version := some 2 }] })] = 3 := by
  have h := manifest_version_bounds_rules "fakeAPINamespace" "fakeMethod"
    (some { manifestVersion := some 2 })
    [("fakeAPINamespace",
      { min_manifest_version := some 2, max_manifest_version := some 3,
        functions := [{ name := "fakeMethod", min_manifest_version := some 3,
                        max_manifest_version := some 2 }] })]
    { min_manifest_version := some 2, max_manifest_version := some 3,
      functions := [{ name := "fakeMethod", min_manifest_version := some 3,
                      max_manifest_version := some 2 }] }
    { name := "fakeMethod", min_manifest_version := some 3,
      max_manifest_version := some 2 }
    (by decide) (by decide)
  exact ⟨h.1.trans (by decide), h.2.1.trans (by decide)⟩

/-- Claimed behavior of the `min_manifest_version` keyword per the claim's
words, for comparison with `validateMinMV`: the effective version substitutes
the default 2 only when the field is absent, and the check passes iff the bound
is at most that effective version. -/
def claimedMinMVPass (minMV : Nat) (rootData : Option ManifestRoot) : Bool :=
  decide (minMV ≤
    match rootData.bind (fun r => r.manifest_version) with
    | some v => v
    | none => MANIFEST_VERSION_DEFAULT)

/-- C3 counterexample: on a document whose root `manifest_version` is the
present value 0, the claim predicts failure for bound 2 (no substitution, and
2 ≤ 0 is false), but `validateMinMV` substitutes the default for the falsy
value and passes. -/
theorem validateMinMV_zero_counterexample :
    claimedMinMVPass 2 (some { manifest_version := some 0 }) = false
    ∧ (validateMinMV 2 (some { manifest_version := some 0 })).fst = true := by
  refine ⟨by decide, by decide⟩

/-- C3 amended: the `min_manifest_version` check substitutes the default 2 when
the root `manifest_version` field is absent or its value is the falsy 0; it
passes iff the bound is at most that effective version, and on failure it
emits exactly one diagnostic with keyword `unsupported` and the message stating
the property is only supported with manifest versions >= bound. -/
theorem validateMinMV_spec (minMV : Nat) (rootData : Option ManifestRoot) :
    ((rootData.bind (fun r => r.manifest_version) = none ∨
        rootData.bind (fun r => r.manifest_version) = some 0) →
      ((validateMinMV minMV rootData).fst = true ↔ minMV ≤ 2))
    ∧ (∀ v, rootData.bind (fun r => r.manifest_version) = some v → v ≠ 0 →
        ((validateMinMV minMV rootData).fst = true ↔ minMV ≤ v))
    ∧ ((validateMinMV minMV rootData).fst = false →
        (validateMinMV minMV rootData).snd =
          some [{ keyword := "unsupported",
                  message := "is in a format only supported with manifest versions >= "
                    ++ toString minMV }])
    ∧ ((validateMinMV minMV rootData).fst = true →
        (validateMinMV minMV rootData).snd = none) := by
  refine ⟨?_, ?_, ?_, ?_⟩
  · intro h
    by_cases hc : minMV ≤ 2 <;>
      rcases h with h | h <;>
        simp [validateMinMV, jsOr, h, MANIFEST_VERSION_DEFAULT, hc]
  · intro v hv hv0
    by_cases hc : minMV ≤ v <;>
      simp [validateMinMV, jsOr, hv, hv0, MANIFEST_VERSION_DEFAULT, hc]
  · intro h
    by_cases hc : minMV ≤ jsOr (rootData.bind (fun r => r.manifest_version))
        MANIFEST_VERSION_DEFAULT
    · simp [validateMinMV, hc] at h
    · simp [validateMinMV, hc]
  · intro h
    by_cases hc : minMV ≤ jsOr (rootData.bind (fun r => r.manifest_version))
        MANIFEST_VERSION_DEFAULT
    · simp [validateMinMV, hc]
    · simp [validateMinMV, hc] at h

/-- C3 witness: with bound 3 on a document declaring manifest_version 2 the
check fails and emits the single `unsupported` diagnostic. -/
theorem validateMinMV_spec_witness :
    (validateMinMV 3 (some { manifest_version := some 2 })).snd =
      some [{ keyword := "unsupported",
              message := "is in a format only supported with manifest versions >= 3" }] :=
  (validateMinMV_spec 3 (some { manifest_version := some 2 })).2.2.1 (by decide)

/-- Claimed behavior of the `max_manifest_version` keyword per the claim's
words, for comparison with `validateMaxMV`: the effective version defaults to 2
when the root field is absent, and the check passes iff that effective version
is at most the bound. -/
def claimedMaxMVPass (maxMV : Nat) (rootData : ManifestRoot) : Bool :=
  decide ((match rootData.manifest_version with
    | some v => v
    | none => MANIFEST_VERSION_DEFAULT) ≤ maxMV)

/-- C4 counterexample: on a document whose root lacks `manifest_version`, the
claim predicts the check passes for bound 2 (effective default 2 ≤ 2), but
`validateMaxMV` compares the bound against the absent value, which is false in
JS, so the check fails. -/
theorem validateMaxMV_absent_counterexample :
    claimedMaxMVPass 2 { manifest_version := none } = true
    ∧ (validateMaxMV 2 { manifest_version := none }).fst = false := by
  refine ⟨by decide, by decide⟩

/-- C4 amended: the `max_manifest_version` check passes iff the root
`manifest_version` field is present and its value is at most the bound (no
default is substituted: an absent field always fails); on failure it emits
exactly one diagnostic with keyword `unsupported` and the message stating the
property is only supported in manifest versions <= bound; in particular
version 3 against bound 2 fails and version 2 against bound 2 passes. -/
theorem validateMaxMV_spec (maxMV : Nat) (rootData : ManifestRoot) :
    ((validateMaxMV maxMV rootData).fst = true ↔
      ∃ v, rootData.manifest_version = some v ∧ v ≤ maxMV)
    ∧ ((validateMaxMV maxMV rootData).fst = false →
        (validateMaxMV maxMV rootData).snd =
          some [{ keyword := "unsupported",
                  message := "is in a format only supported in manifest versions <= "
                    ++ toString maxMV }])
    ∧ ((validateMaxMV maxMV rootData).fst = true →
        (validateMaxMV maxMV rootData).snd = none)
    ∧ (validateMaxMV 2 { manifest_version := some 3 }).fst = false
    ∧ (validateMaxMV 2 { manifest_version := some 2 }).fst = true := by
  refine ⟨?_, ?_, ?_, by decide, by decide⟩
  · cases hv : rootData.manifest_version with
    | none => simp [validateMaxMV, hv]
    | some v => by_cases hc : v ≤ maxMV <;> simp [validateMaxMV, hv, hc]
  · intro h
    cases hv : rootData.manifest_version with
    | none => simp [validateMaxMV, hv]
    | some v =>
      by_cases hc : v ≤ maxMV
      · simp [validateMaxMV, hv, hc] at h
      · simp [validateMaxMV, hv, hc]
  · intro h
    cases hv : rootData.manifest_version with
    | none => simp [validateMaxMV, hv] at h
    | some v =>
      by_cases hc : v ≤ maxMV
      · simp [validateMaxMV, hv, hc]
      · simp [validateMaxMV, hv, hc] at h

/-- C4 witness: with bound 2 on a document declaring manifest_version 3 the
check fails and emits the single `unsupported` diagnostic. -/
theorem validateMaxMV_spec_witness :
    (validateMaxMV 2 { manifest_version := some 3 }).snd =
      some [{ keyword := "unsupported",
              message := "is in a format only supported in manifest versions <= 2" }] :=
  (validateMaxMV_spec 2 { manifest_version := some 3 }).2.1 (by decide)

/-- C7: the `deprecated` keyword passes without emitting anything whenever the
data path is not a key of the deprecated-properties registry, and whenever the
path is registered it always fails, emitting exactly one diagnostic with
keyword `deprecated` carrying the message configured in the schema
annotation. -/
theorem validateDeprecated_behavior (message dataPath : String)
    (deprecatedManifestProperties : List String) :
    (deprecatedManifestProperties.contains dataPath = false →
      validateDeprecated message dataPath deprecatedManifestProperties = (true, none))
    ∧ (deprecatedManifestProperties.contains dataPath = true →
      validateDeprecated message dataPath deprecatedManifestProperties =
        (false, some [{ keyword := "deprecated", message := message }])) := by
  constructor <;> intro h <;> simp at h <;> simp [validateDeprecated, h]

/-- C7 witness: a registered path fails with the configured message, an
unregistered one passes silently, on concrete inputs. -/
theorem validateDeprecated_behavior_witness :
    validateDeprecated "is deprecated" "/theme/images/headerURL" ["/theme/images/headerURL"] =
      (false, some [{ keyword := "deprecated", message := "is deprecated" }])
    ∧ validateDeprecated "is deprecated" "/name" ["/theme/images/headerURL"] = (true, none) :=
  ⟨(validateDeprecated_behavior "is deprecated" "/theme/images/headerURL"
      ["/theme/images/headerURL"]).2 (by decide),
   (validateDeprecated_behavior "is deprecated" "/name"
      ["/theme/images/headerURL"]).1 (by decide)⟩

/-- Helper: a list keeping one element whose keyword is not the composition
artifact survives the artifact filter non-empty. -/
theorem filter_genuine_ne_nil (l : List Diagnostic) (x : Diagnostic) (hx : x ∈ l)
    (hk : x.keyword ≠ "$merge") :
    l.filter (fun d => d.keyword != "$merge") ≠ [] := by
  have hmem : x ∈ l.filter (fun d => d.keyword != "$merge") := by
    rw [List.mem_filter]
    exact ⟨hx, by simpa using hk⟩
  exact List.ne_nil_of_mem hmem

/-- C5: each of the five exported validate entry points is a total function
into a boolean verdict paired with the exposed diagnostics (the embedding has
no failure channel, matching the no-throw contract for documents), and under
the spec's engine contract — an invalid run carries at least one genuine
(non-artifact) diagnostic — whenever an entry point returns false its exposed
diagnostic list is present and non-empty. -/
theorem validate_false_has_diagnostics {Doc : Type}
    (eNormal eMV3 eng : SchemaEngine Doc)
    (hNormal : ∀ d, (eNormal.run d).fst = false →
      ∃ l, (eNormal.run d).snd = some l ∧ ∃ x, x ∈ l ∧ x.keyword ≠ "$merge")
    (hMV3 : ∀ d, (eMV3.run d).fst = false →
      ∃ l, (eMV3.run d).snd = some l ∧ ∃ x, x ∈ l ∧ x.keyword ≠ "$merge")
    (hEng : ∀ d, (eng.run d).fst = false →
      ∃ l, (eng.run d).snd = some l ∧ ∃ x, x ∈ l ∧ x.keyword ≠ "$merge") :
    ∀ doc b,
      ((validateAddon eNormal eMV3 doc b).fst = false →
        ∃ l, (validateAddon eNormal eMV3 doc b).snd = some l ∧ l ≠ [])
      ∧ ((validateStaticTheme eng doc).fst = false →
        ∃ l, (validateStaticTheme eng doc).snd = some l ∧ l ≠ [])
      ∧ ((validateLangPack eng doc).fst = false →
        ∃ l, (validateLangPack eng doc).snd = some l ∧ l ≠ [])
      ∧ ((validateDictionary eng doc).fst = false →
        ∃ l, (validateDictionary eng doc).snd = some l ∧ l ≠ [])
      ∧ ((validateLocaleMessages eng doc).fst = false →
        ∃ l, (validateLocaleMessages eng doc).snd = some l ∧ l ≠ []) := by
  intro doc b
  have core : ∀ e : SchemaEngine Doc,
      (∀ d, (e.run d).fst = false →
        ∃ l, (e.run d).snd = some l ∧ ∃ x, x ∈ l ∧ x.keyword ≠ "$merge") →
      (e.run doc).fst = false →
      ∃ l, filterErrors (e.run doc).snd = some l ∧ l ≠ [] := by
    intro e he hf
    obtain ⟨l, hl, x, hx, hk⟩ := he doc hf
    refine ⟨l.filter (fun d => d.keyword != "$merge"), ?_, ?_⟩
    · rw [hl]
      rfl
    · exact filter_genuine_ne_nil l x hx hk
  refine ⟨?_, ?_, ?_, ?_, ?_⟩
  · intro hf
    cases b
    · exact core eNormal hNormal hf
    · exact core eMV3 hMV3 hf
  · exact core eng hEng
  · exact core eng hEng
  · exact core eng hEng
  · exact core eng hEng

/-- C5 witness: a concrete engine failing with one structural diagnostic makes
the theme entry point return a present, non-empty diagnostic list. -/
theorem validate_false_has_diagnostics_witness :
    ∃ l, (validateStaticTheme
        ({ run := fun _ => (false,
            some [{ keyword := "type", message := "should be object" }]) } : SchemaEngine Unit)
        ()).snd = some l ∧ l ≠ [] := by
  have h := validate_false_has_diagnostics
    ({ run := fun _ => (false,
        some [{ keyword := "type", message := "should be object" }]) } : SchemaEngine Unit)
    { run := fun _ => (false, some [{ keyword := "type", message := "should be object" }]) }
    { run := fun _ => (false, some [{ keyword := "type", message := "should be object" }]) }
    (fun d _ => ⟨[{ keyword := "type", message := "should be object" }], rfl,
      { keyword := "type", message := "should be object" }, by simp, by decide⟩)
    (fun d _ => ⟨[{ keyword := "type", message := "should be object" }], rfl,
      { keyword := "type", message := "should be object" }, by simp, by decide⟩)
    (fun d _ => ⟨[{ keyword := "type", message := "should be object" }], rfl,
      { keyword := "type", message := "should be object" }, by simp, by decide⟩)
    () false
  exact h.2.1 rfl

/-- C8: on every call of any of the five entry points, the exposed diagnostic
list is exactly the engine's list with the composition-artifact entries
(keyword `$merge`) removed, in the original order; membership in the filtered
list is membership in the original list with a keyword other than `$merge`. -/
theorem diagnostics_filtering {Doc : Type} (eNormal eMV3 eng : SchemaEngine Doc)
    (doc : Doc) (b : Bool) (l : List Diagnostic) :
    (((if b then eMV3 else eNormal).run doc).snd = some l →
      (validateAddon eNormal eMV3 doc b).snd =
        some (l.filter (fun d => d.keyword != "$merge")))
    ∧ ((eng.run doc).snd = some l →
      (validateStaticTheme eng doc).snd = some (l.filter (fun d => d.keyword != "$merge"))
      ∧ (validateLangPack eng doc).snd = some (l.filter (fun d => d.keyword != "$merge"))
      ∧ (validateDictionary eng doc).snd = some (l.filter (fun d => d.keyword != "$merge"))
      ∧ (validateLocaleMessages eng doc).snd =
          some (l.filter (fun d => d.keyword != "$merge")))
    ∧ (∀ d, d ∈ l.filter (fun e => e.keyword != "$merge") ↔
        d ∈ l ∧ d.keyword ≠ "$merge") := by
  refine ⟨?_, ?_, ?_⟩
  · intro h
    cases b <;> simp_all [validateAddon, filterErrors]
  · intro h
    refine ⟨?_, ?_, ?_, ?_⟩ <;>
      simp [validateStaticTheme, validateLangPack, validateDictionary,
        validateLocaleMessages, filterErrors, h]
  · intro d
    rw [List.mem_filter]
    simp

/-- C8 witness: a concrete engine producing a composition artifact alongside a
genuine structural diagnostic exposes only the genuine one. -/
theorem diagnostics_filtering_witness :
    (validateStaticTheme
        ({ run := fun _ => (false,
            some [{ keyword := "$merge", message := "patch artifact" },
                  { keyword := "type", message := "should be object" }]) } : SchemaEngine Unit)
        ()).snd = some [{ keyword := "type", message := "should be object" }] := by
  have h := (diagnostics_filtering
    ({ run := fun _ => (false,
        some [{ keyword := "$merge", message := "patch artifact" },
              { keyword := "type", message := "should be object" }]) } : SchemaEngine Unit)
    { run := fun _ => (false,
        some [{ keyword := "$merge", message := "patch artifact" },
              { keyword := "type", message := "should be object" }]) }
    { run := fun _ => (false,
        some [{ keyword := "$merge", message := "patch artifact" },
              { keyword := "type", message := "should be object" }]) }
    () false
    [{ keyword := "$merge", message := "patch artifact" },
     { keyword := "type", message := "should be object" }]).2.1 rfl
  exact h.1.trans (by decide)

/-- C9: the lint rule's MemberExpression visitor reports the unsupported-API
diagnostic (carrying `namespace.member`) exactly on a non-computed access whose
base object exists and is a recognized browser-API namespace identifier and
whose pair fails `hasBrowserApi` for the addon metadata; in every other case —
available API, computed access, or no qualifying base object — it reports
nothing, and it never reports anything else. -/
theorem memberExpressionVisitor_reports_iff (isBN : String → Bool)
    (schemas : APISchemas) (temporaryAPIs : List String)
    (md : Option AddonMetadata) (node : MemberExpressionNode) :
    (memberExpressionVisitor isBN schemas temporaryAPIs md node =
        some (node.objectPropertyName ++ "." ++ node.propertyName)
      ↔ (node.computed = false
          ∧ (∃ objName, node.objectObjectName = some objName ∧ isBN objName = true)
          ∧ hasBrowserApi node.objectPropertyName node.propertyName md schemas
              temporaryAPIs = false))
    ∧ (memberExpressionVisitor isBN schemas temporaryAPIs md node = none
      ∨ memberExpressionVisitor isBN schemas temporaryAPIs md node =
          some (node.objectPropertyName ++ "." ++ node.propertyName)) := by
  obtain ⟨c, objName, nsName, propName⟩ := node
  cases c
  · cases objName with
    | none => simp [memberExpressionVisitor]
    | some a =>
      by_cases hb : isBN a = true
      · by_cases ha : hasBrowserApi nsName propName md schemas temporaryAPIs = true
        · simp [memberExpressionVisitor, hb, ha]
        · simp only [Bool.not_eq_true] at ha
          simp [memberExpressionVisitor, hb, ha]
      · simp only [Bool.not_eq_true] at hb
        simp [memberExpressionVisitor, hb]
  · simp [memberExpressionVisitor]

/-- C10: the errors slot attached to an exported validate function holds, after
any sequence of calls against the same compiled engine, exactly the filtered
diagnostics of the last call (earlier diagnostics are overwritten); each call's
exposed value is the filtered engine errors of that call for all five entry
points; and when the engine reports a valid document with absent errors, the
slot is the absent value, not an empty list. -/
theorem errors_slot_semantics {Doc : Type} (eng : SchemaEngine Doc)
    (initial : Option (List Diagnostic))
    (hValid : ∀ d, (eng.run d).fst = true → (eng.run d).snd = none) :
    (∀ docs d, errorsSlotAfter eng initial (docs ++ [d]) = filterErrors (eng.run d).snd)
    ∧ (∀ docs d, (eng.run d).fst = true →
        errorsSlotAfter eng initial (docs ++ [d]) = none)
    ∧ (∀ doc, (validateStaticTheme eng doc).snd = filterErrors (eng.run doc).snd
        ∧ (validateLangPack eng doc).snd = filterErrors (eng.run doc).snd
        ∧ (validateDictionary eng doc).snd = filterErrors (eng.run doc).snd
        ∧ (validateLocaleMessages eng doc).snd = filterErrors (eng.run doc).snd)
    ∧ (∀ eMV3 doc b, (validateAddon eng eMV3 doc b).snd =
        filterErrors ((if b then eMV3 else eng).run doc).snd) := by
  refine ⟨?_, ?_, fun doc => ⟨rfl, rfl, rfl, rfl⟩, fun eMV3 doc b => rfl⟩
  · intro docs d
    simp [errorsSlotAfter, List.foldl_append]
  · intro docs d h
    simp [errorsSlotAfter, List.foldl_append, hValid d h, filterErrors]

/-- C10 witness: after two calls of a trivially-valid engine starting from a
stale non-empty slot, the slot is the absent value. -/
theorem errors_slot_semantics_witness :
    errorsSlotAfter ({ run := fun _ => (true, none) } : SchemaEngine Unit)
      (some [{ keyword := "type", message := "stale" }]) ([()] ++ [()]) = none :=
  (errors_slot_semantics ({ run := fun _ => (true, none) } : SchemaEngine Unit)
    (some [{ keyword := "type", message := "stale" }])
    (fun d _ => rfl)).2.1 [()] () rfl

end AddonsLinter
